import Mathlib

/-!
# tailwind.config.js

A shallow embedding of the Tailwind configuration object exported by
`tailwind.config.js`, and the data-integrity properties of that object.

Object literals are embedded as association lists in source order, so that
statements about the keys written in the source (presence, uniqueness) are
statements about these lists.  Property access reads the last entry carrying
the key, as a JavaScript object literal lets a later entry override an
earlier one.
-/

namespace TailwindConfig

/-- Plain JavaScript data: strings, array literals and object literals. -/
inductive Js where
  | str : String → Js
  | arr : List Js → Js
  | obj : List (String × Js) → Js

/-- The argument object handed to a theme function; the source destructures
its `theme` member, the token accessor. -/
structure PluginUtils where
  theme : String → String

/-- Values of the exported configuration: plain data, a theme function, the
result of a `require` call, or array and object literals of such values. -/
inductive Cfg where
  | data : Js → Cfg
  | fn : (PluginUtils → Js) → Cfg
  | required : String → Cfg
  | arr : List Cfg → Cfg
  | obj : List (String × Cfg) → Cfg

/-- The part of `tailwindcss/defaultTheme` the configuration reads:
`defaultTheme.fontFamily`. -/
structure FontFamily where
  sans : List String

/-- The value of `require(tailwindcss/defaultTheme)`, supplied by the
framework. -/
structure DefaultTheme where
  fontFamily : FontFamily

/-- Property access on an object literal given by its entries: the last entry
with the key wins. -/
def lookupKey {α : Type} (k : String) : List (String × α) → Option α
  | [] => none
  | (k', v) :: rest =>
    match lookupKey k rest with
    | some w => some w
    | none => if k' = k then some v else none

/-- The keys of an object literal, in source order. -/
def Js.keys : Js → List String
  | .obj fields => fields.map Prod.fst
  | _ => []

/-- Property access `o[k]` on plain data. -/
def Js.get (k : String) : Js → Option Js
  | .obj fields => lookupKey k fields
  | _ => none

/-- The entries of an object literal, in source order. -/
def Js.entries : Js → List (String × Js)
  | .obj fields => fields
  | _ => []

/-- The keys of an object literal of the configuration, in source order. -/
def Cfg.keys : Cfg → List String
  | .obj fields => fields.map Prod.fst
  | _ => []

/-- Property access `o[k]` on a configuration value. -/
def Cfg.get (k : String) : Cfg → Option Cfg
  | .obj fields => lookupKey k fields
  | _ => none

/-- The `content` array literal (source lines 5-7). -/
def content : List String :=
  ["./source/**/*.jinja"]

/-- The array literal `['Inter var', ...defaultTheme.fontFamily.sans]`
(source line 11): the spread appends the elements of the default list. -/
def fontFamilySans (defaultTheme : DefaultTheme) : List String :=
  ["Inter var"] ++ defaultTheme.fontFamily.sans

/-- The object literal under `invert.css` (source lines 15-76). -/
def css (theme : String → String) : Js :=
  .obj [
    ("--tw-prose-body", .str (theme "colors.gray[300]")),
    ("--tw-prose-headings", .str (theme "colors.white")),
    ("--tw-prose-lead", .str (theme "colors.gray[400]")),
    ("--tw-prose-links", .str (theme "colors.blue[400]")),
    ("--tw-prose-bold", .str (theme "colors.white")),
    ("--tw-prose-counters", .str (theme "colors.gray[400]")),
    ("--tw-prose-bullets", .str (theme "colors.gray[600]")),
    ("--tw-prose-hr", .str (theme "colors.gray[700]")),
    ("--tw-prose-quotes", .str (theme "colors.gray[100]")),
    ("--tw-prose-quote-borders", .str (theme "colors.gray[700]")),
    ("--tw-prose-captions", .str (theme "colors.gray[400]")),
    ("--tw-prose-code", .str (theme "colors.white")),
    ("--tw-prose-pre-code", .str (theme "colors.gray[300]")),
    ("--tw-prose-pre-bg", .str (theme "colors.gray[800]")),
    ("--tw-prose-th-borders", .str (theme "colors.gray[600]")),
    ("--tw-prose-td-borders", .str (theme "colors.gray[700]")),
    ("--tw-prose-invert-body", .str (theme "colors.gray[300]")),
    ("--tw-prose-invert-headings", .str (theme "colors.white")),
    ("--tw-prose-invert-lead", .str (theme "colors.gray[400]")),
    ("--tw-prose-invert-links", .str (theme "colors.blue[400]")),
    ("--tw-prose-invert-bold", .str (theme "colors.white")),
    ("--tw-prose-invert-counters", .str (theme "colors.gray[400]")),
    ("--tw-prose-invert-bullets", .str (theme "colors.gray[600]")),
    ("--tw-prose-invert-hr", .str (theme "colors.gray[700]")),
    ("--tw-prose-invert-quotes", .str (theme "colors.gray[100]")),
    ("--tw-prose-invert-quote-borders", .str (theme "colors.gray[700]")),
    ("--tw-prose-invert-captions", .str (theme "colors.gray[400]")),
    ("--tw-prose-invert-code", .str (theme "colors.white")),
    ("--tw-prose-invert-pre-code", .str (theme "colors.gray[300]")),
    ("--tw-prose-invert-pre-bg", .str "transparent"),
    ("--tw-prose-invert-th-borders", .str (theme "colors.gray[600]")),
    ("--tw-prose-invert-td-borders", .str (theme "colors.gray[700]")),
    ("p", .obj [
      ("marginTop", .str "1.25em"),
      ("marginBottom", .str "1.25em")]),
    ("h2, h3, h4, h5, h6", .obj [
      ("marginTop", .str "2em"),
      ("marginBottom", .str "1em")]),
    ("ul", .obj [
      ("marginTop", .str "1.25em"),
      ("marginBottom", .str "1.25em")]),
    ("ol", .obj [
      ("marginTop", .str "1.25em"),
      ("marginBottom", .str "1.25em")]),
    ("li", .obj [
      ("marginTop", .str "0.5em"),
      ("marginBottom", .str "0.5em")]),
    ("blockquote", .obj [
      ("marginTop", .str "1.6em"),
      ("marginBottom", .str "1.6em")]),
    ("pre", .obj [
      ("padding", .str "0"),
      ("margin", .str "0")])]

/-- The theme function `typography: ({ theme }) => (...)` (source lines
13-78). -/
def typography (utils : PluginUtils) : Js :=
  .obj [("invert", .obj [("css", css utils.theme)])]

/-- The `plugins` array literal (source lines 81-83). -/
def plugins : List Cfg :=
  [.required "@tailwindcss/typography"]

/-- The object literal under `theme.extend.fontFamily` (source lines 10-12). -/
def fontFamily (defaultTheme : DefaultTheme) : Cfg :=
  .obj [("sans", .data (.arr ((fontFamilySans defaultTheme).map Js.str)))]

/-- The object literal under `theme.extend` (source lines 9-79). -/
def extend (defaultTheme : DefaultTheme) : Cfg :=
  .obj [("fontFamily", fontFamily defaultTheme), ("typography", .fn typography)]

/-- The object literal under `theme` (source lines 8-80). -/
def theme (defaultTheme : DefaultTheme) : Cfg :=
  .obj [("extend", extend defaultTheme)]

/-- The exported configuration object `module.exports` (source lines 4-84). -/
def moduleExports (defaultTheme : DefaultTheme) : Cfg :=
  .obj [
    ("content", .data (.arr (content.map Js.str))),
    ("theme", theme defaultTheme),
    ("plugins", .arr plugins)]

/-- The css mapping inside the value `typography` returns: the object at
`invert.css`, or no value when that path is absent. -/
def cssOf (utils : PluginUtils) : Option Js :=
  ((typography utils).get "invert").bind (Js.get "css")

/-- The keys of the css mapping `typography` returns, in source order. -/
def cssKeys (utils : PluginUtils) : List String :=
  match cssOf utils with
  | some c => c.keys
  | none => []

/-- The entries of the css mapping `typography` returns, in source order. -/
def cssEntries (utils : PluginUtils) : List (String × Js) :=
  match cssOf utils with
  | some c => c.entries
  | none => []

/-- The value at key `k` of the css mapping `typography` returns. -/
def cssGet (utils : PluginUtils) (k : String) : Option Js :=
  (cssOf utils).bind (Js.get k)

/-- Whether a configuration value is the result of `require(m)`. -/
def Cfg.isRequired (m : String) : Cfg → Bool
  | .required n => n == m
  | _ => false

/-- Whether a key is a prose variable: it starts with `--tw-prose-`. -/
def isProseVar (k : String) : Bool :=
  k.data.take 11 == "--tw-prose-".data

/-- A sample accessor: every token resolves to the empty string. -/
def blankUtils : PluginUtils :=
  ⟨fun _ => ""⟩

/-- A sample accessor: `colors.red[500]`, a token the configuration never
looks up, resolves to a colour and every other token to the empty string. -/
def redOnlyUtils : PluginUtils :=
  ⟨fun t => if t = "colors.red[500]" then "#ef4444" else ""⟩

/-- A sample accessor: every token resolves to the same dark grey. -/
def greyUtils : PluginUtils :=
  ⟨fun _ => "#1f2937"⟩

/-- A sample default theme with three distinct system fonts. -/
def systemTheme : DefaultTheme :=
  ⟨⟨["ui-sans-serif", "system-ui", "sans-serif"]⟩⟩

/-- The default sans sequences of `tailwindcss/defaultTheme`, the module the
configuration requires on source line 1.  The module belongs to the framework
and is not part of this repository; these are the two sequences its releases
ship: the one of releases 3.0 to 3.3 and the shorter one of release 3.4 and
later. -/
def frameworkSans : List (List String) :=
  [["ui-sans-serif", "system-ui", "-apple-system", "BlinkMacSystemFont",
      "\"Segoe UI\"", "Roboto", "\"Helvetica Neue\"", "Arial", "\"Noto Sans\"",
      "sans-serif", "\"Apple Color Emoji\"", "\"Segoe UI Emoji\"",
      "\"Segoe UI Symbol\"", "\"Noto Color Emoji\""],
    ["ui-sans-serif", "system-ui", "sans-serif", "\"Apple Color Emoji\"",
      "\"Segoe UI Emoji\"", "\"Segoe UI Symbol\"", "\"Noto Color Emoji\""]]

/-- The default theme of release 3.4 and later, restricted to the part the
configuration reads. -/
def tailwindTheme : DefaultTheme :=
  ⟨⟨["ui-sans-serif", "system-ui", "sans-serif", "\"Apple Color Emoji\"",
    "\"Segoe UI Emoji\"", "\"Segoe UI Symbol\"", "\"Noto Color Emoji\""]⟩⟩

/-! ## Supporting lemmas -/

theorem cssOf_eq (utils : PluginUtils) : cssOf utils = some (css utils.theme) := rfl

theorem cssKeys_const (utils : PluginUtils) :
    cssKeys utils = (css (fun _ => "")).keys := rfl

theorem default_stem_of_key (k : String) (hk : k ∈ (css (fun _ => "")).keys) (X : String)
    (h : "--tw-prose-" ++ X = k) (hn : ¬ ∃ Y : String, X = "invert-" ++ Y) :
    X ∈ ["body", "headings", "lead", "links", "bold", "counters", "bullets", "hr",
      "quotes", "quote-borders", "captions", "code", "pre-code", "pre-bg",
      "th-borders", "td-borders"] := by
  revert k
  simp only [css, Js.keys, List.map, List.forall_mem_cons]
  simp only [List.mem_nil_iff, false_implies, implies_true, and_true]
  repeat' apply And.intro
  all_goals
    intro h
    have h2 := congrArg String.data h
    simp [String.data_append] at h2
  all_goals
    obtain ⟨xs⟩ := X
    simp only at h2
    first
      | (subst h2; decide)
      | exact absurd ⟨String.mk (List.drop 7 xs), by subst h2; rfl⟩ hn

theorem not_invert_stem_pre_bg : ¬ ∃ Y : String, "pre-bg" = "invert-" ++ Y := by
  rintro ⟨Y, h⟩
  have h2 := congrArg String.data h
  simp [String.data_append] at h2

/-- The configuration removes no duplicates: the override list is free of
them exactly when the default sans sequence is and does not list `Inter var`
itself. -/
theorem sans_nodup_iff (defaultTheme : DefaultTheme) :
    (fontFamilySans defaultTheme).Nodup ↔
      "Inter var" ∉ defaultTheme.fontFamily.sans ∧ defaultTheme.fontFamily.sans.Nodup := by
  simp [fontFamilySans]

/-! ## Claims -/

/-- C1: for every theme accessor and every suffix `X`, if `--tw-prose-X` is a
key of the css mapping `typography` returns and `X` does not itself start with
`invert-` (the key is of the default set), then `--tw-prose-invert-X` is a key
of that mapping too. -/
theorem invert_key_present (utils : PluginUtils) (X : String)
    (hX : "--tw-prose-" ++ X ∈ cssKeys utils)
    (hn : ¬ ∃ Y : String, X = "invert-" ++ Y) :
    "--tw-prose-invert-" ++ X ∈ cssKeys utils := by
  rw [cssKeys_const] at hX ⊢
  have hmem := default_stem_of_key _ hX X rfl hn
  clear hX hn
  revert X
  decide

/-- C1 at the accessor that resolves every token to the empty string and the
suffix `pre-bg`. -/
theorem invert_key_present_witness :
    "--tw-prose-" ++ "pre-bg" ∈ cssKeys blankUtils ∧
    (¬ ∃ Y : String, "pre-bg" = "invert-" ++ Y) ∧
    "--tw-prose-invert-" ++ "pre-bg" ∈ cssKeys blankUtils :=
  ⟨by decide, not_invert_stem_pre_bg,
    invert_key_present blankUtils "pre-bg" (by decide) not_invert_stem_pre_bg⟩

/-- C2: for every default theme, `theme.extend.fontFamily.sans` of the exported
configuration is the array whose first element is `Inter var` and whose
remaining elements are the default sans sequence, in order; its length is the
length of the default sequence plus one. -/
theorem fontFamily_sans_spec (defaultTheme : DefaultTheme) :
    fontFamilySans defaultTheme = "Inter var" :: defaultTheme.fontFamily.sans ∧
    (fontFamilySans defaultTheme).head? = some "Inter var" ∧
    (fontFamilySans defaultTheme).tail = defaultTheme.fontFamily.sans ∧
    (fontFamilySans defaultTheme).length = defaultTheme.fontFamily.sans.length + 1 ∧
    ((((moduleExports defaultTheme).get "theme").bind (Cfg.get "extend")).bind
        (Cfg.get "fontFamily")).bind (Cfg.get "sans") =
      some (.data (.arr (("Inter var" :: defaultTheme.fontFamily.sans).map Js.str))) := by
  refine ⟨rfl, rfl, rfl, ?_, rfl⟩
  simp [fontFamilySans]

/-- C3: for every default sans sequence the framework supplies, the override
list `theme.extend.fontFamily.sans` has no duplicate entries. -/
theorem fontFamily_sans_nodup (defaultTheme : DefaultTheme)
    (h : defaultTheme.fontFamily.sans ∈ frameworkSans) :
    (fontFamilySans defaultTheme).Nodup := by
  rw [sans_nodup_iff]
  generalize defaultTheme.fontFamily.sans = l at h
  revert l
  decide

/-- C3 at the default theme of release 3.4 and later. -/
theorem fontFamily_sans_nodup_witness :
    tailwindTheme.fontFamily.sans ∈ frameworkSans ∧
    (fontFamilySans tailwindTheme).Nodup :=
  ⟨by decide, fontFamily_sans_nodup tailwindTheme (by decide)⟩

/-- C4, as stated, fails: at the accessor that resolves every token to the
empty string, the mapping `typography` returns does not hold both an entry
for the inverted variant, keyed `invert`, and an entry for a default variant
under some other key; it has no entry named `DEFAULT`. -/
theorem typography_no_default_entry :
    ¬ ("invert" ∈ (typography blankUtils).keys ∧
        ∃ d : String, d ≠ "invert" ∧ d ∈ (typography blankUtils).keys) ∧
    "DEFAULT" ∉ (typography blankUtils).keys := by
  simp [typography, Js.keys]

/-- C4, amended: for every theme accessor, the mapping `typography` returns
has exactly one entry, keyed `invert`, which holds exactly one entry, keyed
`css`; the variables of both variants, `--tw-prose-X` and
`--tw-prose-invert-X` for each of the sixteen suffixes, are keys of that one
css mapping. -/
theorem typography_single_invert_entry (utils : PluginUtils) :
    (typography utils).keys = ["invert"] ∧
    (∃ v, (typography utils).get "invert" = some v ∧ v.keys = ["css"]) ∧
    ∀ X ∈ ["body", "headings", "lead", "links", "bold", "counters", "bullets", "hr",
        "quotes", "quote-borders", "captions", "code", "pre-code", "pre-bg",
        "th-borders", "td-borders"],
      "--tw-prose-" ++ X ∈ cssKeys utils ∧ "--tw-prose-invert-" ++ X ∈ cssKeys utils := by
  refine ⟨rfl, ⟨_, rfl, rfl⟩, ?_⟩
  rw [cssKeys_const]
  decide

/-- C4, amended, at the accessor that resolves every token to the empty string
and the suffix `links`. -/
theorem typography_single_invert_entry_witness :
    "--tw-prose-" ++ "links" ∈ cssKeys blankUtils ∧
    "--tw-prose-invert-" ++ "links" ∈ cssKeys blankUtils :=
  (typography_single_invert_entry blankUtils).2.2 "links" (by decide)

/-- C5: for every theme accessor, the css mapping `typography` returns holds
the literal string `transparent` at `--tw-prose-invert-pre-bg`, whatever the
accessor, and the accessor result for `colors.gray[800]` at
`--tw-prose-pre-bg`; the two values differ whenever that result is not itself
`transparent`. -/
theorem pre_bg_values (utils : PluginUtils) :
    cssGet utils "--tw-prose-invert-pre-bg" = some (.str "transparent") ∧
    cssGet utils "--tw-prose-pre-bg" = some (.str (utils.theme "colors.gray[800]")) ∧
    (utils.theme "colors.gray[800]" ≠ "transparent" →
      cssGet utils "--tw-prose-invert-pre-bg" ≠ cssGet utils "--tw-prose-pre-bg") := by
  refine ⟨rfl, rfl, ?_⟩
  intro h heq
  have h1 : cssGet utils "--tw-prose-invert-pre-bg" = some (.str "transparent") := rfl
  have h2 : cssGet utils "--tw-prose-pre-bg" = some (.str (utils.theme "colors.gray[800]")) :=
    rfl
  rw [h1, h2] at heq
  simp only [Option.some.injEq, Js.str.injEq] at heq
  exact h heq.symm

/-- C5 at the accessor that resolves every token to a dark grey: the two pre
backgrounds differ. -/
theorem pre_bg_values_witness :
    greyUtils.theme "colors.gray[800]" ≠ "transparent" ∧
    cssGet greyUtils "--tw-prose-invert-pre-bg" ≠ cssGet greyUtils "--tw-prose-pre-bg" :=
  ⟨by decide, (pre_bg_values greyUtils).2.2 (by decide)⟩

/-- C6: the `plugins` array of the exported configuration holds the result of
requiring `@tailwindcss/typography` exactly once. -/
theorem plugins_typography_once (defaultTheme : DefaultTheme) :
    (moduleExports defaultTheme).get "plugins" = some (.arr plugins) ∧
    plugins.countP (Cfg.isRequired "@tailwindcss/typography") = 1 :=
  ⟨rfl, by decide⟩

/-- C7: the `content` array of the exported configuration holds at least one
pattern, and every pattern in it is a non-empty string. -/
theorem content_patterns_nonempty (defaultTheme : DefaultTheme) :
    (moduleExports defaultTheme).get "content" = some (.data (.arr (content.map Js.str))) ∧
    1 ≤ content.length ∧
    ∀ p ∈ content, p ≠ "" ∧ 0 < p.length := by
  refine ⟨rfl, by decide, ?_⟩
  decide

/-- C7 at the pattern `./source/**/*.jinja`. -/
theorem content_patterns_nonempty_witness :
    "./source/**/*.jinja" ∈ content ∧
    "./source/**/*.jinja" ≠ "" ∧ 0 < "./source/**/*.jinja".length :=
  ⟨by decide,
    (content_patterns_nonempty systemTheme).2.2 "./source/**/*.jinja" (by decide)⟩

/-- C8: keys are unique within each mapping.  For every theme accessor the 39
keys of the css mapping `typography` returns (32 prose variables and 7 element
selectors) are pairwise distinct, as are the keys of every value nested in it
(the element rules), of the mapping `typography` returns and of its `invert`
entry; for every default theme the keys of the exported configuration, of
`theme`, of `theme.extend` and of `fontFamily` are pairwise distinct. -/
theorem keys_unique (utils : PluginUtils) (defaultTheme : DefaultTheme) :
    (cssKeys utils).Nodup ∧
    (cssKeys utils).length = 39 ∧
    (cssKeys utils).countP isProseVar = 32 ∧
    (∀ e ∈ cssEntries utils, e.2.keys.Nodup) ∧
    (typography utils).keys.Nodup ∧
    (∀ v, (typography utils).get "invert" = some v → v.keys.Nodup) ∧
    (moduleExports defaultTheme).keys.Nodup ∧
    (theme defaultTheme).keys.Nodup ∧
    (extend defaultTheme).keys.Nodup ∧
    (fontFamily defaultTheme).keys.Nodup := by
  refine ⟨?_, rfl, ?_, ?_, ?_, ?_, ?_, ?_, ?_, ?_⟩
  · rw [cssKeys_const]; decide
  · rw [cssKeys_const]; decide
  · simp [cssEntries, cssOf, typography, css, Js.get, lookupKey, Js.entries, Js.keys]
  · simp [typography, Js.keys]
  · intro v hv
    simp [typography, Js.get, lookupKey] at hv
    subst hv
    simp [Js.keys]
  · simp [moduleExports, Cfg.keys]
  · simp [theme, Cfg.keys]
  · simp [extend, Cfg.keys]
  · simp [fontFamily, Cfg.keys]

/-- C8 at the accessor that resolves every token to the empty string: the
element rule for `p` is an entry of the css mapping and its two keys are
distinct. -/
theorem keys_unique_witness :
    ("p", Js.obj [("marginTop", .str "1.25em"), ("marginBottom", .str "1.25em")]) ∈
      cssEntries blankUtils ∧
    ["marginTop", "marginBottom"].Nodup :=
  ⟨by simp [cssEntries, cssOf, typography, css, Js.get, lookupKey, Js.entries],
    (keys_unique blankUtils systemTheme).2.2.2.1
      ("p", Js.obj [("marginTop", .str "1.25em"), ("marginBottom", .str "1.25em")])
      (by simp [cssEntries, cssOf, typography, css, Js.get, lookupKey, Js.entries])⟩

/-- C9: for every theme accessor and every suffix `X` other than `pre-bg`
among the prose variables, the css mapping `typography` returns holds a value
at `--tw-prose-X` and the same value at `--tw-prose-invert-X`. -/
theorem invert_value_mirrors_default (utils : PluginUtils) (X : String)
    (hX : X ∈ ["body", "headings", "lead", "links", "bold", "counters", "bullets", "hr",
        "quotes", "quote-borders", "captions", "code", "pre-code",
        "th-borders", "td-borders"]) :
    ∃ v, cssGet utils ("--tw-prose-" ++ X) = some v ∧
      cssGet utils ("--tw-prose-invert-" ++ X) = some v := by
  simp only [List.mem_cons, List.mem_nil_iff, or_false] at hX
  rcases hX with h | h | h | h | h | h | h | h | h | h | h | h | h | h | h <;>
    subst h <;> exact ⟨_, rfl, rfl⟩

/-- C9 at the accessor that resolves every token to the empty string and the
suffix `quote-borders`. -/
theorem invert_value_mirrors_default_witness :
    ∃ v, cssGet blankUtils ("--tw-prose-" ++ "quote-borders") = some v ∧
      cssGet blankUtils ("--tw-prose-invert-" ++ "quote-borders") = some v :=
  invert_value_mirrors_default blankUtils "quote-borders" (by decide)

/-- C10: `typography` depends on its accessor only through the eight tokens it
looks up: two accessors that agree on them give equal mappings; and the
element spacing rules are present and the same for every two accessors. -/
theorem typography_depends_on_tokens (u₁ u₂ : PluginUtils) :
    ((∀ t ∈ ["colors.gray[100]", "colors.gray[300]", "colors.gray[400]",
          "colors.gray[600]", "colors.gray[700]", "colors.gray[800]",
          "colors.white", "colors.blue[400]"], u₁.theme t = u₂.theme t) →
      typography u₁ = typography u₂) ∧
    ∀ s ∈ ["p", "h2, h3, h4, h5, h6", "ul", "ol", "li", "blockquote", "pre"],
      ∃ r, cssGet u₁ s = some r ∧ cssGet u₂ s = some r := by
  constructor
  · intro h
    simp only [List.forall_mem_cons, List.mem_nil_iff, false_implies, implies_true,
      and_true] at h
    obtain ⟨h1, h3, h4, h6, h7, h8, hw, hb⟩ := h
    simp only [typography, css, h1, h3, h4, h6, h7, h8, hw, hb]
  · intro s hs
    simp only [List.mem_cons, List.mem_nil_iff, or_false] at hs
    rcases hs with h | h | h | h | h | h | h <;> subst h <;> exact ⟨_, rfl, rfl⟩

/-- C10 at two accessors that differ on the unused token `colors.red[500]`
and agree everywhere else. -/
theorem typography_depends_on_tokens_witness :
    redOnlyUtils.theme "colors.red[500]" ≠ blankUtils.theme "colors.red[500]" ∧
    (∀ t ∈ ["colors.gray[100]", "colors.gray[300]", "colors.gray[400]",
        "colors.gray[600]", "colors.gray[700]", "colors.gray[800]",
        "colors.white", "colors.blue[400]"], redOnlyUtils.theme t = blankUtils.theme t) ∧
    typography redOnlyUtils = typography blankUtils :=
  ⟨by decide, by decide,
    (typography_depends_on_tokens redOnlyUtils blankUtils).1 (by decide)⟩

end TailwindConfig
